import Mathlib

/-!
Verification of the AQUAVIEW ocean-data updater scripts
(`scripts/update_data.py`, `scripts/update_stations.py`).

The Python sources are shallowly embedded below: Python floats become
rationals (the feeds carry short decimal literals, which rationals
represent exactly; the spec itself leaves rounding of exact halves to
the platform), Python dicts become insertion-ordered association
lists, `None`-or-value becomes `Option`, and the HTTP layer (out of
scope per the spec) becomes an oracle function passed as an argument.
-/

namespace Aquaview

/-- Python `str.split()` with no argument: split on runs of whitespace,
dropping empty pieces. -/
def pysplit (s : String) : List String :=
  (s.split (fun c => c.isWhitespace)).filter (fun t => t ≠ "")

/-- Python `str.strip()` followed by `split("\n")`. -/
def pylines (s : String) : List String :=
  s.trim.splitOn "\n"

/-- Python dict lookup `d.get(k)` on an insertion-ordered association
list: first (hence authoritative, see `dictSet`) binding wins. -/
def dictGet {α : Type} (d : List (String × α)) (k : String) : Option α :=
  (d.find? (fun kv => kv.1 = k)).map (fun kv => kv.2)

/-- Python dict assignment `d[k] = v`: overwrite in place when the key
is present, append otherwise (insertion order preserved). -/
def dictSet {α : Type} (d : List (String × α)) (k : String) (v : α) :
    List (String × α) :=
  if d.any (fun kv => kv.1 = k) then
    d.map (fun kv => if kv.1 = k then (k, v) else kv)
  else d ++ [(k, v)]

/-- Column map `{h: i for i, h in enumerate(headers)}`; a repeated
header name keeps the later index, as in Python. -/
def buildColMap (headers : List String) : List (String × Nat) :=
  headers.enum.foldl (fun m p => dictSet m p.2 p.1) []

/-- Digits of a decimal numeral to a natural number. -/
def digitsToNat (l : List Char) : Nat :=
  l.foldl (fun n c => n * 10 + (c.toNat - 48)) 0

/-- Python `int(s)` restricted to the decimal numerals the feeds carry:
optional surrounding whitespace, optional sign, digits. -/
def parseInt (s : String) : Option Int :=
  let t := s.trim
  let (sg, body) :=
    if t.startsWith "-" then ((-1 : Int), t.drop 1)
    else if t.startsWith "+" then (1, t.drop 1)
    else (1, t)
  if body ≠ "" ∧ body.toList.all Char.isDigit then
    some (sg * (digitsToNat body.toList : Int))
  else none

/-- Python `float(s)` restricted to the plain decimal literals the
feeds carry (optional sign, digits, optional fraction); anything else,
in particular `"MM"`, fails like `float` raising `ValueError`. -/
def parseFloat (s : String) : Option ℚ :=
  let t := s.trim
  let (sg, body) :=
    if t.startsWith "-" then ((-1 : ℚ), t.drop 1)
    else if t.startsWith "+" then (1, t.drop 1)
    else (1, t)
  match body.splitOn "." with
  | [ip] =>
    if ip ≠ "" ∧ ip.toList.all Char.isDigit then
      some (sg * (digitsToNat ip.toList : ℚ))
    else none
  | [ip, fp] =>
    if (ip ≠ "" ∨ fp ≠ "") ∧ ip.toList.all Char.isDigit ∧
        fp.toList.all Char.isDigit then
      some (sg * ((digitsToNat ip.toList : ℚ) +
        mkRat (digitsToNat fp.toList) (10 ^ fp.length)))
    else none
  | _ => none

/-- Round to the nearest integer, ties to even, as Python `round`
does. -/
def roundHalfEven (q : ℚ) : Int :=
  let f := q.floor
  let r := q - f
  if r < mkRat 1 2 then f
  else if mkRat 1 2 < r then f + 1
  else if f % 2 = 0 then f else f + 1

/-- Python `round(x, 4)`: rationals represent the decimal feed values
exactly; the spec leaves exact half-ties (an artifact of binary
floats) to the platform, and none of the values in play is one. -/
def round4 (q : ℚ) : ℚ := mkRat (roundHalfEven (q * 10000)) 10000

/-- The fixed missing-value sentinel strings shared by the feed
parsers. -/
def sentinelStrings : List String :=
  ["MM", "99.0", "999.0", "9999.0", "99.00", "999", "9999"]

/-- Nested helper `get_val` of `parse_ocean_feed` (identical in
`update_data._parse_ocean_feed` and
`update_stations.parse_ocean_feed`): sentinel strings and, outside the
DEPTH column, any value at least 99 are treated as missing. -/
def get_val (col_map : List (String × Nat)) (parts : List String)
    (col_name : String) : Option ℚ :=
  match dictGet col_map col_name with
  | none => none
  | some idx =>
    if idx < parts.length then
      let val_str := parts.getD idx ""
      if val_str ∈ sentinelStrings then none
      else
        match parseFloat val_str with
        | none => none
        | some v =>
          if 99 ≤ v ∧ col_name ∉ ["DEPTH"] then none else some v
    else none

/-- Nested helper `get` of `update_data._parse_ndbc_met_txt`: sentinel
strings are missing, and a parsed value is kept only when it is below
999. -/
def met_get (col_map : List (String × Nat)) (parts : List String)
    (name : String) : Option ℚ :=
  match dictGet col_map name with
  | none => none
  | some idx =>
    if idx < parts.length then
      let s := parts.getD idx ""
      if s ∈ sentinelStrings then none
      else
        match parseFloat s with
        | none => none
        | some v => if v < 999 then some v else none
    else none

/-- Gregorian leap year, as `datetime` uses it. -/
def isLeap (y : Int) : Bool := y % 4 = 0 ∧ (y % 100 ≠ 0 ∨ y % 400 = 0)

/-- Days in a month, as `datetime` validates them. -/
def daysInMonth (y m : Int) : Int :=
  if m = 2 then (if isLeap y then 29 else 28)
  else if m = 4 ∨ m = 6 ∨ m = 9 ∨ m = 11 then 30
  else 31

/-- Whether `datetime(yr, mo, dy, hr, mn)` succeeds. -/
def validDate (y mo d h mi : Int) : Bool :=
  decide (1 ≤ y ∧ y ≤ 9999 ∧ 1 ≤ mo ∧ mo ≤ 12 ∧ 1 ≤ d ∧
    d ≤ daysInMonth y mo ∧ 0 ≤ h ∧ h < 24 ∧ 0 ≤ mi ∧ mi < 60)

/-- Reads the five date columns of one data row, with the default
column indices of the source (`col_map.get("#YY", col_map.get("YY", 0))`
and so on); `none` models `ValueError` or `IndexError`, which make the
loop `continue`. -/
def dateOf (col_map : List (String × Nat)) (parts : List String) :
    Option (Int × Int × Int × Int × Int) :=
  let gi := fun (k : String) (d : Nat) => (dictGet col_map k).getD d
  do
    let yr ← parseInt (← parts.get? (gi "#YY" (gi "YY" 0)))
    let mo ← parseInt (← parts.get? (gi "MM" 1))
    let dy ← parseInt (← parts.get? (gi "DD" 2))
    let hr ← parseInt (← parts.get? (gi "hh" 3))
    let mn ← parseInt (← parts.get? (gi "mm" 4))
    pure (yr, mo, dy, hr, mn)

/-- Scan state of `parse_ocean_feed`: the five tracked fields plus the
timestamp (kept as the validated date tuple rather than its ISO
rendering). -/
structure OceanScan where
  do' : Option ℚ
  temp : Option ℚ
  sal : Option ℚ
  ph : Option ℚ
  turb : Option ℚ
  timestamp : Option (Int × Int × Int × Int × Int)
deriving DecidableEq

/-- The empty scan state. -/
def OceanScan.init : OceanScan := ⟨none, none, none, none, none, none⟩

/-- One-row update of the ocean-feed scan: record the timestamp from
the first row with a valid date, then fill each still-missing field
from this row. -/
def oceanRow (col_map : List (String × Nat)) (parts : List String)
    (st : OceanScan) (d : Int × Int × Int × Int × Int) : OceanScan :=
  let ts := if st.timestamp = none then
      (if validDate d.1 d.2.1 d.2.2.1 d.2.2.2.1 d.2.2.2.2 then some d
       else none)
    else st.timestamp
  { do' := if st.do' = none then get_val col_map parts "O2PPM" else st.do'
    temp := if st.temp = none then get_val col_map parts "OTMP" else st.temp
    sal := if st.sal = none then get_val col_map parts "SAL" else st.sal
    ph := if st.ph = none then get_val col_map parts "PH" else st.ph
    turb := if st.turb = none then get_val col_map parts "TURB" else st.turb
    timestamp := ts }

/-- The row loop of `parse_ocean_feed` over `lines[2:50]`: rows with
fewer than five tokens or an unparseable date are skipped; the loop
breaks once dissolved oxygen and temperature are both filled. -/
def scanOcean (col_map : List (String × Nat)) :
    List String → OceanScan → OceanScan
  | [], st => st
  | line :: rest, st =>
    let parts := pysplit line
    if parts.length < 5 then scanOcean col_map rest st
    else
      match dateOf col_map parts with
      | none => scanOcean col_map rest st
      | some d =>
        let st := oceanRow col_map parts st d
        if st.do' ≠ none ∧ st.temp ≠ none then st
        else scanOcean col_map rest st

/-- Result of the ocean-feed (and met-feed) parsers: numeric fields in
insertion order, plus the optional timestamp. -/
structure OceanResult where
  fields : List (String × ℚ)
  timestamp : Option (Int × Int × Int × Int × Int)
deriving DecidableEq

/-- Embedding of `parse_ocean_feed` (`update_stations.py`), identical
to `_parse_ocean_feed` (`update_data.py`); `none` input models the
fetch returning `None`. -/
def parse_ocean_feed (text : Option String) : Option OceanResult :=
  match text with
  | none => none
  | some t =>
    if t = "" then none
    else
      let lines := pylines t
      if lines.length < 3 then none
      else
        let col_map := buildColMap (pysplit (lines.headD ""))
        let st := scanOcean col_map ((lines.drop 2).take 48) OceanScan.init
        let readings := [("do", st.do'), ("temp", st.temp), ("sal", st.sal),
          ("ph", st.ph), ("turb", st.turb)]
        let result := readings.filterMap
          (fun kv => kv.2.map (fun v => (kv.1, v)))
        if result = [] ∧ st.timestamp = none then none
        else some ⟨result, st.timestamp⟩

/-- One field of the met scan: `if key not in readings: v = get(col);
if v is not None: readings[key] = v`. -/
def metAdd (col_map : List (String × Nat)) (parts : List String)
    (readings : List (String × ℚ)) (key col : String) :
    List (String × ℚ) :=
  if readings.any (fun kv => kv.1 = key) then readings
  else
    match met_get col_map parts col with
    | some v => dictSet readings key v
    | none => readings

/-- All seven tracked met fields, filled in source order. -/
def metFill (col_map : List (String × Nat)) (parts : List String)
    (readings : List (String × ℚ)) : List (String × ℚ) :=
  let r := metAdd col_map parts readings "wspd" "WSPD"
  let r := metAdd col_map parts r "wdir" "WDIR"
  let r := metAdd col_map parts r "wvht" "WVHT"
  let r := metAdd col_map parts r "dpd" "DPD"
  let r := metAdd col_map parts r "pres" "PRES"
  let r := metAdd col_map parts r "atmp" "ATMP"
  metAdd col_map parts r "wtmp" "WTMP"

/-- The row loop of `_parse_ndbc_met_txt` over `lines[2:6]`: rows with
fewer than ten tokens are skipped; the loop breaks once four fields
are filled. -/
def scanMet (col_map : List (String × Nat)) :
    List String → List (String × ℚ) → List (String × ℚ)
  | [], readings => readings
  | line :: rest, readings =>
    let parts := pysplit line
    if parts.length < 10 then scanMet col_map rest readings
    else
      let readings := metFill col_map parts readings
      if 4 ≤ readings.length then readings
      else scanMet col_map rest readings

/-- Embedding of `_parse_ndbc_met_txt` (`update_data.py`). -/
def parse_ndbc_met_txt (text : Option String) : Option (List (String × ℚ)) :=
  match text with
  | none => none
  | some t =>
    if t = "" then none
    else
      let lines := pylines t
      if lines.length < 3 then none
      else
        let col_map := buildColMap (pysplit (lines.headD ""))
        let readings := scanMet col_map ((lines.drop 2).take 4) []
        if readings = [] then none else some readings

/-- The row loop of `parse_txt_feed`: the guard
`if wtmp_idx and wtmp_idx < len(parts)` uses Python truthiness, so a
WTMP column at header index 0 never passes it. -/
def scanTxt (col_map : List (String × Nat)) :
    List String → Option (List (String × ℚ))
  | [] => none
  | line :: rest =>
    let parts := pysplit line
    if parts.length < 5 then scanTxt col_map rest
    else
      match dictGet col_map "WTMP" with
      | some idx =>
        if idx ≠ 0 ∧ idx < parts.length then
          match parseFloat (parts.getD idx "") with
          | some v =>
            if v < 50 ∧ parts.getD idx "" ≠ "MM" then some [("temp", v)]
            else scanTxt col_map rest
          | none => scanTxt col_map rest
        else scanTxt col_map rest
      | none => scanTxt col_map rest

/-- Embedding of `parse_txt_feed` (`update_stations.py`), identical to
`_parse_txt_feed` (`update_data.py`): water-temperature fallback over
`lines[2:10]`. -/
def parse_txt_feed (text : Option String) : Option (List (String × ℚ)) :=
  match text with
  | none => none
  | some t =>
    if t = "" then none
    else
      let lines := pylines t
      if lines.length < 3 then none
      else
        let col_map := buildColMap (pysplit (lines.headD ""))
        scanTxt col_map ((lines.drop 2).take 8)

/-- The hypoxia merge loop of `update_ndbc_hypoxia` (`update_data.py`)
and `main` (`update_stations.py`): when the parser returned readings,
a missing or null `current` becomes `{}` and each reading key is
written into it (`timestamp` under the name `last_obs`); when it
returned nothing, `current` is untouched. -/
def merge_current {α : Type} (cur : Option (List (String × α)))
    (readings : List (String × α)) : Option (List (String × α)) :=
  if readings.isEmpty then cur
  else some (readings.foldl
    (fun c kv => dictSet c (if kv.1 = "timestamp" then "last_obs" else kv.1) kv.2)
    (cur.getD []))

/-- Post-fetch body of `fetch_glider_track` (`update_data.py`): rows
are `[time, lat, lon]` with possibly-null coordinates, modelled as
optional (lat, lon) pairs; the function strides by
`max 1 (len(rows) / 200)` over `range(0, len(rows), step)` and then
appends the final row when its point is not already last. -/
def fetch_glider_track (rows : List (Option ℚ × Option ℚ)) :
    List (ℚ × ℚ) :=
  if rows = [] then []
  else
    let step := max 1 (rows.length / 200)
    let track := ((List.range rows.length).filter (fun i => i % step = 0)).filterMap
      (fun i =>
        match rows.getD i (none, none) with
        | (some lat, some lon) => some (round4 lon, round4 lat)
        | _ => none)
    match rows.getLast? with
    | some (some lat, some lon) =>
      let last_pt := (round4 lon, round4 lat)
      if track.getLast? ≠ some last_pt then track ++ [last_pt] else track
    | _ => track

/-- Geometry of a discovered STAC feature, restricted to the
well-typed shapes the extractors branch on; every other or missing
geometry is `other` and is skipped. -/
inductive Geom where
  | point (lon lat : ℚ)
  | multiPoint (pts : List (ℚ × ℚ))
  | lineString (pts : List (ℚ × ℚ))
  | other
deriving DecidableEq

/-- A discovered STAC feature, with the property fields the extractors
read (`id` is modelled as always present, as the discovery endpoint
supplies it; optional properties are `Option`). -/
structure Item where
  id : String
  geom : Geom
  title : Option String
  varNames : List String
  source_url : String
  organization : String
  description : String
  datetime : Option String
  start_datetime : Option String
  links : List (String × String)
deriving DecidableEq

/-- An output document: `count` plus the record list (the `updated`
timestamp, wall-clock time, is outside the model). -/
structure Doc (R : Type) where
  count : Nat
  records : List R
deriving DecidableEq

/-- Station-id derivation `sid.split("_")[-1] if "_" in sid else sid`. -/
def stationId (sid : String) : String :=
  if sid.contains '_' then (sid.splitOn "_").getLastD sid else sid

/-- An IOOS sensor output record. -/
structure SensorRec where
  id : String
  title : String
  lat : ℚ
  lon : ℚ
  vars : List String
  src : String
  org : String
deriving DecidableEq

/-- Per-feature body of `update_ioos_sensors`: Points and non-empty
MultiPoints (first point) are kept, everything else skipped. -/
def ioos_sensor_of (item : Item) : Option SensorRec :=
  let build := fun (lon lat : ℚ) =>
    some { id := item.id
           title := (item.title.getD item.id).take 80
           lat := round4 lat
           lon := round4 lon
           vars := item.varNames.take 10
           src := item.source_url.take 200
           org := item.organization : SensorRec }
  match item.geom with
  | .point lon lat => build lon lat
  | .multiPoint ((lon, lat) :: _) => build lon lat
  | _ => none

/-- Embedding of `update_ioos_sensors` (`update_data.py`), from the
discovered feature list to the written document. -/
def update_ioos_sensors (items : List Item) : Doc SensorRec :=
  let sensors := items.filterMap ioos_sensor_of
  ⟨sensors.length, sensors⟩

/-- An NDBC weather-buoy output record. -/
structure BuoyRec where
  id : String
  lat : ℚ
  lon : ℚ
  title : String
  vars : List String
  current : Option (List (String × ℚ))
deriving DecidableEq

/-- The buoy record built for a Point feature, with the given live
reading (the source builds the dict first and conditionally adds the
`current` key). -/
def buoyBase (item : Item) (lon lat : ℚ)
    (cur : Option (List (String × ℚ))) : BuoyRec :=
  { id := stationId item.id
    lat := round4 lat
    lon := round4 lon
    title := (item.title.getD (stationId item.id)).take 80
    vars := item.varNames.take 8
    current := cur }

/-- One iteration of the buoy loop of `update_ndbc_met`: the
accumulator is the record list plus the `fetched` counter; the live
`.txt` fetch happens only while `fetched < 200`, and `fetched` counts
buoys whose feed yielded readings. `fetchTxt` is the transport oracle
(station id to optional body). -/
def buoy_step (fetchTxt : String → Option String)
    (acc : List BuoyRec × Nat) (item : Item) : List BuoyRec × Nat :=
  match item.geom with
  | .point lon lat =>
    if acc.2 < 200 then
      match parse_ndbc_met_txt (fetchTxt (stationId item.id)) with
      | some r => (acc.1 ++ [buoyBase item lon lat (some r)], acc.2 + 1)
      | none => (acc.1 ++ [buoyBase item lon lat none], acc.2)
    else (acc.1 ++ [buoyBase item lon lat none], acc.2)
  | _ => acc

/-- Embedding of `update_ndbc_met` (`update_data.py`). -/
def update_ndbc_met (fetchTxt : String → Option String)
    (items : List Item) : Doc BuoyRec :=
  let buoys := (items.foldl (buoy_step fetchTxt) ([], 0)).1
  ⟨buoys.length, buoys⟩

/-- A CO-OPS tide-station output record; `current` is the optional
water-level reading (wl, time). -/
structure CoopsRec where
  id : String
  lat : ℚ
  lon : ℚ
  title : String
  vars : List String
  src : String
  current : Option (ℚ × String)
deriving DecidableEq

/-- Per-feature body of the first loop of `update_coops`. -/
def coops_station_of (item : Item) : Option CoopsRec :=
  match item.geom with
  | .point lon lat =>
    some { id := stationId item.id
           lat := round4 lat
           lon := round4 lon
           title := (item.title.getD (stationId item.id)).take 80
           vars := item.varNames.take 6
           src := item.source_url.take 200
           current := none }
  | _ => none

/-- Per-station body of the water-level loop of `update_coops`: `resp`
models the `data` array of the tide API response (each row a dict of
string fields), `none` covering fetch or decode failure or a missing
`data` key. With a present but unparseable `v` the `float` call
raises and the surrounding `try` leaves the station unchanged; with an
absent `v` the source computes `float(latest.get("v", 0))`, recording
a water level of 0. -/
def coops_live (resp : Option (List (List (String × String))))
    (s : CoopsRec) : CoopsRec :=
  match resp with
  | none => s
  | some rows =>
    if rows = [] then s
    else
      let latest := rows.getLastD []
      match dictGet latest "v" with
      | some vs =>
        match parseFloat vs with
        | some v => { s with current := some (v, (dictGet latest "t").getD "") }
        | none => s
      | none => { s with current := some (0, (dictGet latest "t").getD "") }

/-- Embedding of `update_coops` (`update_data.py`): the water-level
loop runs over `stations[:100]` only. `fetchWL` is the transport
oracle from station id to the optional `data` array. -/
def update_coops (fetchWL : String → Option (List (List (String × String))))
    (items : List Item) : Doc CoopsRec :=
  let stations := items.filterMap coops_station_of
  let stations := (stations.take 100).map (fun s => coops_live (fetchWL s.id) s)
    ++ stations.drop 100
  ⟨stations.length, stations⟩

/-- An incident output record. -/
structure IncidentRec where
  id : String
  title : String
  lat : ℚ
  lon : ℚ
  date : String
  desc : String
  url : String
deriving DecidableEq

/-- Per-feature body of `update_incidents`. -/
def incident_of (item : Item) : Option IncidentRec :=
  match item.geom with
  | .point lon lat =>
    some { id := item.id
           title := (item.title.getD "Unknown Incident").take 120
           lat := round4 lat
           lon := round4 lon
           date := item.datetime.getD (item.start_datetime.getD "")
           desc := item.description.take 300
           url := ((item.links.find? (fun l => l.1 = "alternate")).map
             (fun l => l.2)).getD "" }
  | _ => none

/-- Embedding of `update_incidents` (`update_data.py`): records are
sorted by date string, newest first (stable). -/
def update_incidents (items : List Item) : Doc IncidentRec :=
  let incidents := items.filterMap incident_of
  let sorted := incidents.mergeSort (fun a b => !(a.date < b.date))
  ⟨sorted.length, sorted⟩

/-! ### Association-list lemmas -/

theorem find?_overwrite {α : Type} (k : String) (v : α) :
    ∀ d : List (String × α), (d.any fun kv => kv.1 = k) = true →
      ((d.map fun kv => if kv.1 = k then (k, v) else kv).find?
        fun kv => kv.1 = k) = some (k, v)
  | [], h => by simp at h
  | x :: d, h => by
    by_cases hx : x.1 = k
    · simp only [List.map_cons, if_pos hx]
      exact List.find?_cons_of_pos _ (by simp)
    · have h' : (d.any fun kv => kv.1 = k) = true := by
        simp only [List.any_cons, Bool.or_eq_true, decide_eq_true_eq] at h
        exact List.any_eq_true.2 (by simpa using h.resolve_left hx)
      simp only [List.map_cons, if_neg hx]
      rw [List.find?_cons_of_neg _ (by simpa using hx)]
      exact find?_overwrite k v d h'

theorem dictGet_dictSet_self {α : Type} (d : List (String × α)) (k : String)
    (v : α) : dictGet (dictSet d k v) k = some v := by
  unfold dictGet dictSet
  by_cases h : (d.any fun kv => kv.1 = k) = true
  · rw [if_pos h, find?_overwrite k v d h]
    rfl
  · rw [if_neg h, List.find?_append]
    have hd : (d.find? fun kv => kv.1 = k) = none := by
      rw [List.find?_eq_none]
      intro x hx hpx
      exact h (List.any_eq_true.2 ⟨x, hx, hpx⟩)
    rw [hd]
    simp

theorem find?_map_setkey {α : Type} {k k' : String} (hne : k' ≠ k) (v : α) :
    ∀ d : List (String × α),
      ((d.map fun kv => if kv.1 = k' then (k', v) else kv).find?
        fun kv => kv.1 = k) = d.find? fun kv => kv.1 = k
  | [] => rfl
  | x :: d => by
    by_cases hx : x.1 = k'
    · simp only [List.map_cons, if_pos hx]
      rw [List.find?_cons_of_neg _ (by simp [hne]),
        List.find?_cons_of_neg _ (by simp [hx, hne])]
      exact find?_map_setkey hne v d
    · simp only [List.map_cons, if_neg hx]
      by_cases hk : x.1 = k
      · rw [List.find?_cons_of_pos _ (by simp [hk]),
          List.find?_cons_of_pos _ (by simp [hk])]
      · rw [List.find?_cons_of_neg _ (by simp [hk]),
          List.find?_cons_of_neg _ (by simp [hk])]
        exact find?_map_setkey hne v d

theorem dictGet_dictSet_ne {α : Type} (d : List (String × α)) {k k' : String}
    (v : α) (hne : k' ≠ k) : dictGet (dictSet d k' v) k = dictGet d k := by
  unfold dictGet dictSet
  by_cases h : (d.any fun kv => kv.1 = k') = true
  · rw [if_pos h, find?_map_setkey hne v d]
  · rw [if_neg h, List.find?_append]
    cases hfind : d.find? fun kv => kv.1 = k with
    | some x => simp [hfind]
    | none => simp [hfind, hne]

/-- Keys never written by the merge fold keep their value. -/
theorem merge_fold_untouched {α : Type} (k : String) :
    ∀ (readings : List (String × α)) (c : List (String × α)),
      k ∉ readings.map Prod.fst → "timestamp" ∉ readings.map Prod.fst →
      dictGet (readings.foldl (fun c kv =>
        dictSet c (if kv.1 = "timestamp" then "last_obs" else kv.1) kv.2) c) k
        = dictGet c k
  | [], c, _, _ => rfl
  | r :: rs, c, hk, hts => by
    have hk1 : r.1 ≠ k := fun h => hk (by simp [← h])
    have hts1 : r.1 ≠ "timestamp" := fun h => hts (by simp [← h])
    simp only [List.foldl_cons, if_neg hts1]
    rw [merge_fold_untouched k rs _ (fun h => hk (by simp [h]))
      (fun h => hts (by simp [h]))]
    exact dictGet_dictSet_ne c r.2 hk1

/-- A key of the readings ends up with its reading value after the
merge fold. -/
theorem merge_fold_mem {α : Type} :
    ∀ (readings : List (String × α)) (c : List (String × α)) (k : String)
      (v : α), (k, v) ∈ readings → (readings.map Prod.fst).Nodup →
      "timestamp" ∉ readings.map Prod.fst →
      dictGet (readings.foldl (fun c kv =>
        dictSet c (if kv.1 = "timestamp" then "last_obs" else kv.1) kv.2) c) k
        = some v
  | [], _, _, _, hmem, _, _ => by simp at hmem
  | r :: rs, c, k, v, hmem, hnd, hts => by
    have hnd' : r.1 ∉ rs.map Prod.fst ∧ (rs.map Prod.fst).Nodup := by
      rw [List.map_cons, List.nodup_cons] at hnd
      exact hnd
    have hts1 : r.1 ≠ "timestamp" := fun h => hts (by simp [← h])
    simp only [List.foldl_cons, if_neg hts1]
    rcases List.mem_cons.1 hmem with heq | hmem'
    · have hk : k ∉ rs.map Prod.fst := by
        have hr : r.1 = k := by rw [← heq]
        exact hr ▸ hnd'.1
      have hts' : "timestamp" ∉ rs.map Prod.fst := fun h => hts (by simp [h])
      rw [merge_fold_untouched k rs _ hk hts']
      rw [← heq]
      exact dictGet_dictSet_self c k v
    · exact merge_fold_mem rs _ k v hmem' hnd'.2
        (fun h => hts (by simp [h]))

/-- C2. For every hypoxia station with an existing current mapping and
every non-empty new reading mapping (field keys, hence distinct and
without the separately handled timestamp key), the merge adds the new
keys, overwrites the keys present in both, and leaves keys absent from
the reading unchanged; in particular current `{do: 5, temp: 20}` merged
with reading `{temp: 21, sal: 30}` is `{do: 5, temp: 21, sal: 30}`. -/
theorem C2_hypoxia_merge_law :
    (∀ (α : Type) (cur readings : List (String × α)), readings ≠ [] →
      (readings.map Prod.fst).Nodup → "timestamp" ∉ readings.map Prod.fst →
      ∃ m, merge_current (some cur) readings = some m ∧
        (∀ k v, (k, v) ∈ readings → dictGet m k = some v) ∧
        (∀ k, k ∉ readings.map Prod.fst → dictGet m k = dictGet cur k)) ∧
    merge_current (some [("do", (5 : ℚ)), ("temp", 20)])
        [("temp", 21), ("sal", 30)]
      = some [("do", 5), ("temp", 21), ("sal", 30)] := by
  constructor
  · intro α cur readings hne hnd hts
    refine ⟨readings.foldl (fun c kv =>
      dictSet c (if kv.1 = "timestamp" then "last_obs" else kv.1) kv.2) cur,
      ?_, ?_, ?_⟩
    · unfold merge_current
      rw [if_neg (by simpa [List.isEmpty_iff] using hne)]
      rfl
    · intro k v hmem
      exact merge_fold_mem readings cur k v hmem hnd hts
    · intro k hk
      exact merge_fold_untouched k readings cur hk hts
  · decide!

/-- Witness for C2 at the concrete example of the claim. -/
theorem C2_hypoxia_merge_law_witness :
    ∃ m, merge_current (some [("do", (5 : ℚ)), ("temp", 20)])
        [("temp", 21), ("sal", 30)] = some m ∧
      dictGet m "temp" = some 21 ∧ dictGet m "sal" = some 30 ∧
      dictGet m "do" = some 5 := by
  obtain ⟨m, hm, hadd, hun⟩ := C2_hypoxia_merge_law.1 ℚ
    [("do", 5), ("temp", 20)] [("temp", 21), ("sal", 30)]
    (by decide) (by decide) (by decide)
  refine ⟨m, hm, hadd "temp" 21 (by decide), hadd "sal" 30 (by simp),
    ?_⟩
  rw [hun "do" (by decide)]
  decide!

/-! ### Sentinel handling (C3, C4) -/

/-- C3. For every sentinel string in the missing-value set and every
tracked column, reading that string as the field value yields absent
in each feed parser helper (`get_val` of the two identical ocean-feed
parsers, `get` of the met parser), never a numeric value. -/
theorem C3_sentinels_absent (col_map : List (String × Nat))
    (parts : List String) (name : String) (idx : Nat) (s : String)
    (hidx : dictGet col_map name = some idx) (hs : parts.get? idx = some s)
    (hsent : s ∈ sentinelStrings) :
    get_val col_map parts name = none ∧ met_get col_map parts name = none := by
  have hlt : idx < parts.length := by
    rcases List.get?_eq_some.1 hs with ⟨h, -⟩
    exact h
  have hD : parts.getD idx "" = s := by
    simp [List.getD_eq_getElem?_getD, ← List.get?_eq_getElem?, hs]
  constructor
  · unfold get_val
    rw [hidx]
    simp only [if_pos hlt, hD, if_pos hsent]
  · unfold met_get
    rw [hidx]
    simp only [if_pos hlt, hD, if_pos hsent]

/-- Witness for C3: each of the seven sentinel strings at a concrete
column, through both parser helpers. -/
theorem C3_sentinels_absent_witness :
    (get_val [("C", 0)] ["MM"] "C" = none ∧ met_get [("C", 0)] ["MM"] "C" = none) ∧
    get_val [("C", 0)] ["99.0"] "C" = none ∧
    get_val [("C", 0)] ["999.0"] "C" = none ∧
    get_val [("C", 0)] ["9999.0"] "C" = none ∧
    get_val [("C", 0)] ["99.00"] "C" = none ∧
    get_val [("C", 0)] ["999"] "C" = none ∧
    met_get [("C", 0)] ["9999"] "C" = none :=
  ⟨C3_sentinels_absent [("C", 0)] ["MM"] "C" 0 "MM"
      (by decide) (by decide) (by decide),
    (C3_sentinels_absent [("C", 0)] ["99.0"] "C" 0 "99.0"
      (by decide) (by decide) (by decide)).1,
    (C3_sentinels_absent [("C", 0)] ["999.0"] "C" 0 "999.0"
      (by decide) (by decide) (by decide)).1,
    (C3_sentinels_absent [("C", 0)] ["9999.0"] "C" 0 "9999.0"
      (by decide) (by decide) (by decide)).1,
    (C3_sentinels_absent [("C", 0)] ["99.00"] "C" 0 "99.00"
      (by decide) (by decide) (by decide)).1,
    (C3_sentinels_absent [("C", 0)] ["999"] "C" 0 "999"
      (by decide) (by decide) (by decide)).1,
    (C3_sentinels_absent [("C", 0)] ["9999"] "C" 0 "9999"
      (by decide) (by decide) (by decide)).2⟩

/-- C4 counterexample: the met-feed helper keeps the value 100 in a
non-depth field (its threshold is 999, not 99), so the claim that
every feed parser treats values at least 99 as absent is false. -/
theorem C4_met_get_keeps_100 :
    met_get [("PRES", 0)] ["100.0"] "PRES" = some 100 := by decide!

/-- C4 as amended: in the ocean-feed helper, a parsed value at least
99 in a non-DEPTH column is absent, with boundary 98.9 kept and 99.0
dropped; in the met-feed helper the threshold is 999: values at least
999 are absent and non-sentinel values below 999 are kept. -/
theorem C4_high_values_absent :
    (∀ (col_map : List (String × Nat)) (parts : List String)
      (name : String) (idx : Nat) (s : String) (v : ℚ),
      dictGet col_map name = some idx → parts.get? idx = some s →
      parseFloat s = some v → 99 ≤ v → name ≠ "DEPTH" →
      get_val col_map parts name = none) ∧
    get_val [("OTMP", 0)] ["98.9"] "OTMP" = some (mkRat 989 10) ∧
    get_val [("OTMP", 0)] ["99.0"] "OTMP" = none ∧
    (∀ (col_map : List (String × Nat)) (parts : List String)
      (name : String) (idx : Nat) (s : String) (v : ℚ),
      dictGet col_map name = some idx → parts.get? idx = some s →
      parseFloat s = some v → 999 ≤ v →
      met_get col_map parts name = none) ∧
    (∀ (col_map : List (String × Nat)) (parts : List String)
      (name : String) (idx : Nat) (s : String) (v : ℚ),
      dictGet col_map name = some idx → parts.get? idx = some s →
      s ∉ sentinelStrings → parseFloat s = some v → v < 999 →
      met_get col_map parts name = some v) := by
  refine ⟨?_, by decide!, by decide!, ?_, ?_⟩
  · intro col_map parts name idx s v hidx hs hv h99 hname
    have hlt : idx < parts.length := by
      rcases List.get?_eq_some.1 hs with ⟨h, -⟩
      exact h
    have hD : parts.getD idx "" = s := by
      simp [List.getD_eq_getElem?_getD, ← List.get?_eq_getElem?, hs]
    unfold get_val
    rw [hidx]
    by_cases hsent : s ∈ sentinelStrings
    · simp only [if_pos hlt, hD, if_pos hsent]
    · simp only [if_pos hlt, hD, if_neg hsent, hv]
      rw [if_pos ⟨h99, by simpa using hname⟩]
  · intro col_map parts name idx s v hidx hs hv h999
    have hlt : idx < parts.length := by
      rcases List.get?_eq_some.1 hs with ⟨h, -⟩
      exact h
    have hD : parts.getD idx "" = s := by
      simp [List.getD_eq_getElem?_getD, ← List.get?_eq_getElem?, hs]
    unfold met_get
    rw [hidx]
    by_cases hsent : s ∈ sentinelStrings
    · simp only [if_pos hlt, hD, if_pos hsent]
    · simp only [if_pos hlt, hD, if_neg hsent, hv]
      rw [if_neg (by simpa using h999)]
  · intro col_map parts name idx s v hidx hs hsent hv hvlt
    have hlt : idx < parts.length := by
      rcases List.get?_eq_some.1 hs with ⟨h, -⟩
      exact h
    have hD : parts.getD idx "" = s := by
      simp [List.getD_eq_getElem?_getD, ← List.get?_eq_getElem?, hs]
    unfold met_get
    rw [hidx]
    simp only [if_pos hlt, hD, if_neg hsent, hv]
    rw [if_pos hvlt]

/-- Witness for C4 as amended: 120.5 dropped by the ocean helper,
1013.2 dropped and 5.0 kept by the met helper. -/
theorem C4_high_values_absent_witness :
    get_val [("SAL", 0)] ["120.5"] "SAL" = none ∧
    met_get [("PRES", 0)] ["1013.2"] "PRES" = none ∧
    met_get [("WSPD", 0)] ["5.0"] "WSPD" = some 5 :=
  ⟨C4_high_values_absent.1 [("SAL", 0)] ["120.5"] "SAL" 0 "120.5"
      (mkRat 1205 10) (by decide) (by decide) (by decide!) (by decide!)
      (by decide),
    C4_high_values_absent.2.2.2.1 [("PRES", 0)] ["1013.2"] "PRES" 0 "1013.2"
      (mkRat 10132 10) (by decide) (by decide) (by decide!) (by decide!),
    C4_high_values_absent.2.2.2.2 [("WSPD", 0)] ["5.0"] "WSPD" 0 "5.0"
      5 (by decide) (by decide) (by decide) (by decide!) (by decide!)⟩

/-! ### Track subsampling (C1) -/

/-- A 1000-row glider trajectory with pairwise distinct valid points
(row i at latitude and longitude i). -/
def gliderRows1000 : List (Option ℚ × Option ℚ) :=
  (List.range 1000).map (fun i => (some (i : ℚ), some (i : ℚ)))

/-- C1 fails on the code: for a 1000-row trajectory the stride is
`max 1 (1000 / 200) = 5`, giving the 200 points at rows 0, 5, ..., 995,
and the final row 999 is then appended as a 201st point, exceeding the
200-point cap that both the spec and the source comment
(`subsample to max 200 points`) state. -/
theorem C1_glider_track_overflows_cap :
    (fetch_glider_track gliderRows1000).length = 201 := by decide!

/-! ### Document count invariant (C5) -/

/-- C5. Every output document written by the modelled extractors has
its count field equal to the length of its record list at write time,
for the sensor, met-buoy and incident extractors alike. -/
theorem C5_count_eq_length :
    (∀ items : List Item, (update_ioos_sensors items).count =
      (update_ioos_sensors items).records.length) ∧
    (∀ (fetchTxt : String → Option String) (items : List Item),
      (update_ndbc_met fetchTxt items).count =
        (update_ndbc_met fetchTxt items).records.length) ∧
    (∀ items : List Item, (update_incidents items).count =
      (update_incidents items).records.length) :=
  ⟨fun _ => rfl, fun _ _ => rfl, fun _ => rfl⟩

/-! ### Buoy end-to-end scenario (C6) -/

/-- The discovered feature of the C6 scenario: a Point at
[-90.1234567, 25.7654321] titled Buoy 42001, with a prefixed id. -/
def item42001 : Item :=
  { id := "NDBC_42001"
    geom := .point (mkRat (-901234567) 10000000) (mkRat 257654321 10000000)
    title := some "Buoy 42001"
    varNames := []
    source_url := ""
    organization := ""
    description := ""
    datetime := none
    start_datetime := none
    links := [] }

/-- C6. On that feature the buoy extractor outputs lat 25.7654 and
lon -90.1235 (4-decimal rounding) and the id 42001 obtained by
splitting the feature id on the underscore and keeping the last
segment. -/
theorem C6_buoy_scenario :
    (update_ndbc_met (fun _ => none) [item42001]).records =
      [{ id := "42001"
         lat := mkRat 257654 10000
         lon := mkRat (-901235) 10000
         title := "Buoy 42001"
         vars := []
         current := none }] := by decide!

/-! ### Empty-result handling of the ocean parser (C7) -/

/-- An ocean feed whose only data row has a valid date but every
tracked field set to the MM sentinel: zero fields are extracted. -/
def oceanTextAllMM : String :=
  "#YY MM DD hh mm O2PPM OTMP SAL PH TURB\nyr mo dy hr mn ppm degC psu - ntu\n2024 01 15 12 00 MM MM MM MM MM"

/-- C7 counterexample: on `oceanTextAllMM` zero fields are extracted,
yet the parser returns a field-free timestamp-only mapping rather than
absent, because the timestamp makes the Python result dict truthy. -/
theorem C7_field_free_mapping_returned :
    parse_ocean_feed (some oceanTextAllMM) =
      some ⟨[], some (2024, 1, 15, 12, 0)⟩ := by decide!

/-- C7 as amended: the parser returns absent when zero fields and no
timestamp were extracted, and never returns a mapping that is empty
outright; but a text with a parseable date and no valid field yields a
timestamp-only mapping. -/
theorem C7_no_empty_mapping :
    ∀ (text : Option String) (r : OceanResult),
      parse_ocean_feed text = some r →
      r.fields ≠ [] ∨ r.timestamp ≠ none := by
  intro text r h
  cases text with
  | none => simp [parse_ocean_feed] at h
  | some t =>
    simp only [parse_ocean_feed] at h
    by_cases h0 : t = ""
    · rw [if_pos h0] at h
      cases h
    · rw [if_neg h0] at h
      by_cases h3 : (pylines t).length < 3
      · rw [if_pos h3] at h
        cases h
      · rw [if_neg h3] at h
        split at h
        · cases h
        · rename_i hcond
          rcases Option.some_injective _ h.symm with rfl
          exact not_and_or.mp hcond

/-- An ocean feed with a dissolved-oxygen value on its data row. -/
def oceanTextDO : String :=
  "#YY MM DD hh mm O2PPM OTMP SAL PH TURB\nyr mo dy hr mn ppm degC psu - ntu\n2024 01 15 12 00 5.2 20.1 MM MM MM"

/-- Witness for C7 as amended, at a feed carrying a reading. -/
theorem C7_no_empty_mapping_witness :
    ∃ r, parse_ocean_feed (some oceanTextDO) = some r ∧
      (r.fields ≠ [] ∨ r.timestamp ≠ none) :=
  ⟨⟨[("do", mkRat 26 5), ("temp", mkRat 201 10)], some (2024, 1, 15, 12, 0)⟩,
    by decide!,
    C7_no_empty_mapping (some oceanTextDO) _ (by decide!)⟩

/-! ### Live-fetch rate limiting (C8) -/

/-- A valid met feed row, so that the parser yields readings. -/
def metFeedText : String :=
  "#YY MM DD hh mm WDIR WSPD WVHT DPD PRES\nyr mo dy hr mn degT m/s m sec hPa\n2024 01 15 12 00 180 5.0 1.2 8.0 998.0"

/-- 201 discovered point features with station ids s0 ... s200. -/
def buoyItems201 : List Item :=
  (List.range 201).map (fun i =>
    { item42001 with id := "s" ++ toString i, title := none })

/-- A transport on which only station s200 serves a feed. -/
def buoyOracle201 : String → Option String :=
  fun s => if s = "s200" then some metFeedText else none

/-- C8 counterexample: the buoy extractor counts successful fetches,
not leading records, so when the first 200 feeds yield nothing the
201st discovered buoy (index 200, beyond the stated cap of the first
200) still receives a live reading. -/
theorem C8_buoy_beyond_cap_gets_reading :
    ((update_ndbc_met buoyOracle201 buoyItems201).records.map
      (fun b => b.current.isSome)).get? 200 = some true := by decide!

/-- One buoy step keeps the success counter equal to the number of
records carrying a live reading and below the cap. -/
theorem buoy_step_invariant (fetchTxt : String → Option String)
    (acc : List BuoyRec × Nat) (item : Item)
    (hcount : acc.1.countP (fun b => b.current.isSome) = acc.2)
    (hle : acc.2 ≤ 200) :
    (buoy_step fetchTxt acc item).1.countP (fun b => b.current.isSome)
        = (buoy_step fetchTxt acc item).2 ∧
      (buoy_step fetchTxt acc item).2 ≤ 200 := by
  unfold buoy_step
  cases item.geom with
  | point lon lat =>
    dsimp only
    by_cases hf : acc.2 < 200
    · rw [if_pos hf]
      cases parse_ndbc_met_txt (fetchTxt (stationId item.id)) with
      | some r =>
        constructor
        · simp [List.countP_append, hcount, buoyBase]
        · dsimp only
          omega
      | none =>
        constructor
        · simp [List.countP_append, hcount, buoyBase]
        · exact hle
    · rw [if_neg hf]
      constructor
      · simp [List.countP_append, hcount, buoyBase]
      · exact hle
  | multiPoint pts => exact ⟨hcount, hle⟩
  | lineString pts => exact ⟨hcount, hle⟩
  | other => exact ⟨hcount, hle⟩

/-- The buoy fold keeps its success counter equal to the number of
records carrying a live reading, and that counter never exceeds 200. -/
theorem buoy_fold_invariant (fetchTxt : String → Option String) :
    ∀ (items : List Item) (acc : List BuoyRec × Nat),
      acc.1.countP (fun b => b.current.isSome) = acc.2 → acc.2 ≤ 200 →
      (items.foldl (buoy_step fetchTxt) acc).1.countP
          (fun b => b.current.isSome)
        = (items.foldl (buoy_step fetchTxt) acc).2 ∧
      (items.foldl (buoy_step fetchTxt) acc).2 ≤ 200
  | [], _, hcount, hle => ⟨hcount, hle⟩
  | item :: items, acc, hcount, hle => by
    rw [List.foldl_cons]
    obtain ⟨h1, h2⟩ := buoy_step_invariant fetchTxt acc item hcount hle
    exact buoy_fold_invariant fetchTxt items _ h1 h2

/-- C8 as amended: at most 200 buoys receive a live reading per run
(the fetch loop stops attempting once 200 have succeeded, but the 200
need not be the first 200 discovered), and the tide-station extractor
performs its live fetch for the first 100 stations only, so every
station from index 100 on has no live reading. -/
theorem C8_rate_limits :
    (∀ (fetchTxt : String → Option String) (items : List Item),
      (update_ndbc_met fetchTxt items).records.countP
        (fun b => b.current.isSome) ≤ 200) ∧
    (∀ (fetchWL : String → Option (List (List (String × String))))
      (items : List Item),
      (((update_coops fetchWL items).records.drop 100).all
        (fun s => s.current.isNone)) = true) := by
  constructor
  · intro fetchTxt items
    have h := buoy_fold_invariant fetchTxt items ([], 0) rfl (by omega)
    show (items.foldl (buoy_step fetchTxt) ([], 0)).1.countP
      (fun b => b.current.isSome) ≤ 200
    omega
  · intro fetchWL items
    have hcur : ∀ s ∈ items.filterMap coops_station_of, s.current = none := by
      intro s hs
      rcases List.mem_filterMap.1 hs with ⟨item, -, hitem⟩
      unfold coops_station_of at hitem
      cases hgeom : item.geom <;> rw [hgeom] at hitem <;>
        simp only [Option.some.injEq, reduceCtorEq] at hitem
      rw [← hitem]
    show ((((items.filterMap coops_station_of).take 100).map
        (fun s => coops_live (fetchWL s.id) s)
        ++ (items.filterMap coops_station_of).drop 100).drop 100).all
      (fun s => s.current.isNone) = true
    rw [List.drop_append_eq_append_drop,
      List.drop_eq_nil_of_le (by simp),
      List.nil_append, List.all_eq_true]
    intro r hr
    have hrs : r ∈ items.filterMap coops_station_of :=
      List.mem_of_mem_drop (List.mem_of_mem_drop hr)
    simp [hcur r hrs]

/-! ### No invented zero readings (C9) -/

/-- A bare tide station record before the live fetch. -/
def station0 : CoopsRec :=
  { id := "8726520", lat := 0, lon := 0, title := "", vars := [], src := ""
    current := none }

/-- C9 counterexample: when the latest tide data point has no `v`
field at all, `float(latest.get("v", 0))` records a water level of 0,
so an upstream-absent value is written as a zero reading. -/
theorem C9_zero_reading_invented :
    (coops_live (some [[("t", "2024-01-01 00:00")]]) station0).current
      = some (0, "2024-01-01 00:00") := by decide!

/-- C9 as amended: whenever the upstream latest data point supplies a
parseable water-level value, exactly that value is recorded (no zero
substituted); only a data point lacking the `v` field entirely is
recorded as wl 0 by the `float(latest.get("v", 0))` default. -/
theorem C9_recorded_wl_matches_upstream :
    ∀ (resp : Option (List (List (String × String)))) (s : CoopsRec)
      (rows : List (List (String × String)))
      (latest : List (String × String)) (vs : String) (v : ℚ),
      resp = some rows → rows.getLast? = some latest →
      dictGet latest "v" = some vs → parseFloat vs = some v →
      (coops_live resp s).current = some (v, (dictGet latest "t").getD "") := by
  intro resp s rows latest vs v hresp hlast hv hparse
  subst hresp
  have hne : rows ≠ [] := by
    intro hnil
    rw [hnil] at hlast
    cases hlast
  have hlastD : rows.getLastD [] = latest := by
    rw [List.getLastD_eq_getLast?, hlast]
    rfl
  simp only [coops_live, if_neg hne, hlastD, hv, hparse]

/-- Witness for C9 as amended. -/
theorem C9_recorded_wl_matches_upstream_witness :
    (coops_live (some [[("v", "1.5"), ("t", "x")]]) station0).current
      = some (mkRat 3 2, "x") := by
  have h := C9_recorded_wl_matches_upstream
    (some [[("v", "1.5"), ("t", "x")]]) station0 [[("v", "1.5"), ("t", "x")]]
    [("v", "1.5"), ("t", "x")] "1.5" (mkRat 3 2) rfl (by decide)
    (by decide) (by decide!)
  rw [h]
  decide!

/-! ### WTMP truthiness (C10) -/

/-- The scan of the txt fallback parser returns nothing whenever the
WTMP column sits at header index 0, because `if wtmp_idx` treats the
index 0 as false. -/
theorem scanTxt_wtmp_zero (col_map : List (String × Nat))
    (h : dictGet col_map "WTMP" = some 0) :
    ∀ lines : List String, scanTxt col_map lines = none
  | [] => rfl
  | line :: rest => by
    unfold scanTxt
    by_cases h5 : (pysplit line).length < 5
    · rw [if_pos h5]
      exact scanTxt_wtmp_zero col_map h rest
    · rw [if_neg h5, h]
      dsimp only
      rw [if_neg (by simp)]
      exact scanTxt_wtmp_zero col_map h rest

/-- C10. For every txt feed whose header row puts the WTMP column at
index 0, the fallback parser returns absent, whatever the data rows
hold: the Python guard `if wtmp_idx and ...` treats index 0 as falsy. -/
theorem C10_wtmp_at_index_zero_absent :
    ∀ t : String,
      dictGet (buildColMap (pysplit ((pylines t).headD ""))) "WTMP" = some 0 →
      parse_txt_feed (some t) = none := by
  intro t h
  by_cases h0 : t = ""
  · simp only [parse_txt_feed, if_pos h0]
  · simp only [parse_txt_feed, if_neg h0]
    by_cases h3 : (pylines t).length < 3
    · rw [if_pos h3]
    · rw [if_neg h3]
      exact scanTxt_wtmp_zero _ h _

/-- A txt feed with WTMP as first column and a plausible 20.0 degree
value on the data row. -/
def wtmpFirstText : String :=
  "WTMP YY MM DD hh\ndegC yr mo dy hr\n20.0 24 01 15 12"

/-- Witness for C10: the concrete feed has WTMP at index 0 with a
valid value below 50 on its data row, and the parser still returns
absent. -/
theorem C10_wtmp_at_index_zero_absent_witness :
    dictGet (buildColMap (pysplit ((pylines wtmpFirstText).headD "")))
        "WTMP" = some 0 ∧
      parse_txt_feed (some wtmpFirstText) = none :=
  ⟨by decide!, C10_wtmp_at_index_zero_absent wtmpFirstText (by decide!)⟩

end Aquaview
